import Mathlib

/-!
Shallow embedding of the max↔telegram webhook bridge (src/app), covering the
configuration validation, the two sender-attribution formatters, the two
webhook receivers with their chat filters and dispatch routing, the file
lifecycle of the download-then-upload senders, and the two HTTP endpoints.
Optional strings model Python `Optional[str]`; Python truthiness is made
explicit; exceptions are modelled as explicit outcomes or `Except`.
-/

namespace Bridge

/-- Python truthiness of an `Optional[str]`: `if s:` holds iff `s` is
neither `None` nor the empty string. -/
def truthy : Option String → Bool
  | none => false
  | some s => s != ""

/-- Python `a or b` on optional strings: `b` whenever `a` is falsy. -/
def pyOr (a b : Option String) : Option String :=
  if truthy a then a else b

/-- Python `a or lit` where the fallback is a plain string. -/
def pyOrS (a : Option String) (b : String) : String :=
  if truthy a then a.getD "" else b

/-- Python `str.replace`, char-list worker: replaces left-to-right,
non-overlapping occurrences of a non-empty `pat` by `repl`; `fuel` bounds
the recursion and is instantiated with the string length, which suffices
since every step consumes at least one character. -/
def pyReplaceFuel (pat repl : List Char) : Nat → List Char → List Char
  | _, [] => []
  | 0, l => l
  | fuel + 1, c :: cs =>
    if !pat.isEmpty && (c :: cs).take pat.length == pat then
      repl ++ pyReplaceFuel pat repl fuel ((c :: cs).drop pat.length)
    else c :: pyReplaceFuel pat repl fuel cs

/-- Python `s.replace(pat, repl)` for the non-empty patterns used in the
source (kernel-reducible, unlike `String.replace`). -/
def pyReplace (s pat repl : String) : String :=
  String.mk (pyReplaceFuel pat.data repl.data s.data.length s.data)

/-- Python `s.startswith(pre)` (kernel-reducible). -/
def pyStartsWith (s pre : String) : Bool :=
  s.data.take pre.data.length == pre.data

/-- The fields of `Settings` (app/config.py) consulted by the embedded
functions; server host/port, log level and the webhook URL are I/O wiring
that none of the embedded logic reads. -/
structure Settings where
  max_instance_id : String
  max_api_token : String
  telegram_bot_token : String
  telegram_channel_id : String
  max_chat_id : Option String
  telegram_webhook_secret : Option String
  telegram_chat_id : Option String
  max_target_chat_id : String
  enable_max_to_telegram : Bool
  enable_telegram_to_max : Bool
  webhook_secret : Option String
deriving DecidableEq

/-- `Settings.validate_settings` (app/config.py:46-79): the two `raise
ValueError` statements become `Except.error`; otherwise the method returns
`all(required)`, where a string counts iff it is non-empty. -/
def validate_settings (s : Settings) : Except String Bool :=
  if s.enable_max_to_telegram && s.enable_telegram_to_max then
    Except.error "both directions enabled"
  else if !s.enable_max_to_telegram && !s.enable_telegram_to_max then
    Except.error "no direction enabled"
  else
    let required0 := [s.max_instance_id, s.max_api_token, s.telegram_bot_token]
    let required1 :=
      if s.enable_max_to_telegram then required0 ++ [s.telegram_channel_id] else required0
    let required2 :=
      if s.enable_telegram_to_max then required1 ++ [s.max_target_chat_id] else required1
    Except.ok (required2.all (fun r => r != ""))

/-- Whether a `validate_settings` run raised (`ValueError`). -/
def raises : Except String Bool → Bool
  | Except.error _ => true
  | Except.ok _ => false

/-- `GreenApiClient._format_message` (app/green_api_client.py:240-265):
collects `👤 {name}` and `@{username}` for the truthy parts, joins them
with `" | "`, and prefixes the fixed label; with no sender info the text is
returned unchanged. -/
def greenFormatMessage (text : String) (sender_name sender_username : Option String) : String :=
  let info1 : List String :=
    if truthy sender_name then ["👤 " ++ sender_name.getD ""] else []
  let info2 : List String :=
    if truthy sender_username then ["@" ++ sender_username.getD ""] else []
  let sender_info := info1 ++ info2
  if sender_info.isEmpty then text
  else
    let header := String.intercalate " | " sender_info
    "📨 *From Telegram:* " ++ header ++ "\n\n" ++ text

/-- `GreenApiClient._format_chat_id` (app/green_api_client.py:28-47). -/
def format_chat_id (chat_id : String) : String :=
  pyReplace (pyReplace chat_id "@c.us" "") "@g.us" ""

/-- The request body built by `GreenApiClient.send_text_message`
(app/green_api_client.py:49-97): `chatId` and `message` of the JSON payload
posted to `sendMessage`. -/
structure MaxSendPayload where
  chatId : String
  message : String
deriving DecidableEq

def greenSendTextPayload (chat_id text : String)
    (sender_name sender_username : Option String) : MaxSendPayload :=
  ⟨format_chat_id chat_id, greenFormatMessage text sender_name sender_username⟩

/-- `TelegramClient._format_message` (app/telegram_client.py:189-206). The
person icon in the source file is mojibake: the UTF-8 bytes of U+1F464 were
decoded as cp1252, leaving the four characters U+00F0 U+0178 U+2018 U+00A4
in the literal. `sender_phone` is accepted but unused, as in the source. -/
def tgFormatMessage (text : String) (sender_name sender_phone : Option String) : String :=
  if truthy sender_name then
    "ðŸ‘¤ <b>" ++ sender_name.getD "" ++ "</b>" ++ "\n\n" ++ text
  else text

/-- The caption handed to `_format_message` by `TelegramClient.send_photo`
(app/telegram_client.py:78-80): `caption or "<photo icon> Photo"`, where the
icon is the mojibake U+00F0 U+0178 U+201C U+00B7 present in the source. -/
def tgPhotoCaption (caption : Option String) : String :=
  pyOrS caption "ðŸ“· Photo"

/-- The caption handed to `_format_message` by `TelegramClient.send_video`
(app/telegram_client.py:166-168), mojibake icon U+00F0 U+0178 U+017D U+00A5. -/
def tgVideoCaption (caption : Option String) : String :=
  pyOrS caption "ðŸŽ¥ Video"

/-- The caption handed to `_format_message` by `TelegramClient.send_document`
(app/telegram_client.py:123-125): `caption or f"<doc icon> {filename or
'Document'}"`, where the icon in the source is the mojibake sequence
U+00F0 U+0178 U+201C U+201E (the UTF-8 bytes of U+1F4C4 decoded as cp1252). -/
def tgDocumentCaption (filename caption : Option String) : String :=
  pyOrS caption ("ðŸ“„ " ++ pyOrS filename "Document")

/-- Outcome of `TelegramClient._download_file` (app/telegram_client.py:
208-231): a connection error (the broad `except` firing before any file
exists) or a non-200 status yield `None` with no temporary file on disk;
with a 200 status the `NamedTemporaryFile(delete=False)` is created before
the body is read, so an exception from `response.read()` or `tmp.write` is
swallowed by the same `except` and `None` is returned while the file
persists on disk; on full success the temp path is returned and the file
exists. -/
inductive DownloadOutcome where
  | connError
  | badStatus
  | readError
  | ok
deriving DecidableEq

/-- Outcome of the underlying `bot.send_*` transport call: delivered, or a
`TelegramAPIError` raised. -/
inductive SendOutcome where
  | delivered
  | apiError
deriving DecidableEq

/-- `_download_file` as (returned path, temp files existing after it); on
`readError` the `delete=False` temp file was already created, so it
survives the swallowed exception even though `None` is returned. -/
def download_file (d : DownloadOutcome) (tmpName : String) : Option String × List String :=
  match d with
  | DownloadOutcome.connError => (none, [])
  | DownloadOutcome.badStatus => (none, [])
  | DownloadOutcome.readError => (none, [tmpName])
  | DownloadOutcome.ok => (some tmpName, [tmpName])

/-- File lifecycle and return value of `TelegramClient.send_photo`
(app/telegram_client.py:58-99): `os.unlink` is the line after a successful
`bot.send_photo`, so a raised `TelegramAPIError` jumps to the `except` arm
and returns `False` without deleting the file; a failed download returns
`False` with no file. Result: (returned bool, temp files existing after). -/
def send_photo_run (d : DownloadOutcome) (s : SendOutcome) (tmpName : String) :
    Bool × List String :=
  let r := download_file d tmpName
  match r.1 with
  | none => (false, r.2)
  | some f =>
    match s with
    | SendOutcome.delivered => (true, r.2.erase f)
    | SendOutcome.apiError => (false, r.2)

/-- Same control flow for `TelegramClient.send_video`
(app/telegram_client.py:146-187). -/
def send_video_run (d : DownloadOutcome) (s : SendOutcome) (tmpName : String) :
    Bool × List String :=
  let r := download_file d tmpName
  match r.1 with
  | none => (false, r.2)
  | some f =>
    match s with
    | SendOutcome.delivered => (true, r.2.erase f)
    | SendOutcome.apiError => (false, r.2)

/-- Same control flow for `TelegramClient.send_document`
(app/telegram_client.py:101-144). -/
def send_document_run (d : DownloadOutcome) (s : SendOutcome) (tmpName : String) :
    Bool × List String :=
  let r := download_file d tmpName
  match r.1 with
  | none => (false, r.2)
  | some f =>
    match s with
    | SendOutcome.delivered => (true, r.2.erase f)
    | SendOutcome.apiError => (false, r.2)

/-- `messageData.fileMessageData` of a GREEN-API payload, the dict shape of
an attachment. -/
structure FileMessageData where
  downloadUrl : Option String
  fileName : Option String
deriving DecidableEq

def FileMessageData.empty : FileMessageData := ⟨none, none⟩

/-- The parts of `messageData` read by the handlers: `typeMessage`,
`textMessageData.textMessage`, `extendedTextMessageData.text`, the
dict-shaped `fileMessageData`, the string-shaped top-level `downloadUrl`,
and `caption`. -/
structure MessageData where
  typeMessage : Option String
  textMessage : Option String
  extendedText : Option String
  fileMessageData : Option FileMessageData
  downloadUrl : Option String
  caption : Option String
deriving DecidableEq

def MessageData.empty : MessageData := ⟨none, none, none, none, none, none⟩

/-- The parts of `senderData` read by the handlers. -/
structure SenderData where
  chatId : Option String
  sender : Option String
  senderName : Option String
  name : Option String
deriving DecidableEq

def SenderData.empty : SenderData := ⟨none, none, none, none⟩

/-- A GREEN-API webhook payload as read by `WebhookHandler`. -/
structure Payload where
  typeWebhook : Option String
  senderData : Option SenderData
  messageData : Option MessageData
deriving DecidableEq

/-- A dispatch call made on `telegram_client` by the Max→Telegram handlers. -/
inductive TgCall where
  | sendText (text : String) (sender_name sender_phone : Option String)
  | sendPhoto (url : String) (caption sender_name sender_phone : Option String)
  | sendVideo (url : String) (caption sender_name sender_phone : Option String)
  | sendDocument (url : String) (filename : String)
      (caption sender_name sender_phone : Option String)
deriving DecidableEq

/-- The webhook-type allow-list of `WebhookHandler.handle_incoming_message`
(app/handlers.py:66). -/
def allowedWebhookTypes : List String :=
  ["incomingMessageReceived", "incomingCall", "outgoingMessageReceived",
   "outgoingAPIMessageReceived"]

/-- The seven `typeMessage` values with a handler arm
(app/handlers.py:93-106). -/
def mappedMessageTypes : List String :=
  ["textMessage", "extendedTextMessage", "imageMessage", "videoMessage",
   "documentMessage", "audioMessage", "voiceMessage"]

/-- `WebhookHandler.should_process_message` (app/handlers.py:33-48). -/
def should_process_message (target_chat_id chat_id : Option String) : Bool :=
  if !truthy target_chat_id then true
  else chat_id == target_chat_id

/-- The chat id the handler extracts: `senderData.chatId or senderData.sender`
(app/handlers.py:80). -/
def maxChatOf (p : Payload) : Option String :=
  let sender_data := p.senderData.getD SenderData.empty
  pyOr sender_data.chatId sender_data.sender

/-- `messageData.typeMessage` of a payload (app/handlers.py:91). -/
def typeMessageOf (p : Payload) : Option String :=
  (p.messageData.getD MessageData.empty).typeMessage

/-- `textMessageData.textMessage` of a payload. -/
def textOf (p : Payload) : Option String :=
  (p.messageData.getD MessageData.empty).textMessage

/-- Whether `typeWebhook` is on the allow-list (app/handlers.py:66). -/
def eventAllowed (p : Payload) : Bool :=
  match p.typeWebhook with
  | some wt => allowedWebhookTypes.contains wt
  | none => false

/-- Whether `typeMessage` has a handler arm. -/
def typeMapped (p : Payload) : Bool :=
  match typeMessageOf p with
  | some t => mappedMessageTypes.contains t
  | none => false

/-- `WebhookHandler._handle_text_message` (app/handlers.py:117-126):
dispatches only when the extracted text is non-empty. -/
def handle_text_message_max (md : MessageData) (sn sp : Option String) : List TgCall :=
  let text := md.textMessage.getD ""
  if text != "" then [TgCall.sendText text sn sp] else []

/-- `WebhookHandler._handle_extended_text_message` (app/handlers.py:128-137). -/
def handle_extended_text_message (md : MessageData) (sn sp : Option String) : List TgCall :=
  let text := md.extendedText.getD ""
  if text != "" then [TgCall.sendText text sn sp] else []

/-- `WebhookHandler._handle_image_message` (app/handlers.py:139-155):
`fileMessageData or downloadUrl`; a present `fileMessageData` record models
a truthy (non-empty) dict, and in the string-shaped branch the caption is
`None`. -/
def handle_image_message (md : MessageData) (sn sp : Option String) : List TgCall :=
  match md.fileMessageData with
  | some fd =>
    if truthy fd.downloadUrl then
      [TgCall.sendPhoto (fd.downloadUrl.getD "") md.caption sn sp]
    else []
  | none =>
    if truthy md.downloadUrl then
      [TgCall.sendPhoto (md.downloadUrl.getD "") none sn sp]
    else []

/-- `WebhookHandler._handle_video_message` (app/handlers.py:157-173). -/
def handle_video_message (md : MessageData) (sn sp : Option String) : List TgCall :=
  match md.fileMessageData with
  | some fd =>
    if truthy fd.downloadUrl then
      [TgCall.sendVideo (fd.downloadUrl.getD "") md.caption sn sp]
    else []
  | none =>
    if truthy md.downloadUrl then
      [TgCall.sendVideo (md.downloadUrl.getD "") none sn sp]
    else []

/-- `WebhookHandler._handle_document_message` (app/handlers.py:175-190):
filename falls back to `"document"`, caption is passed through. -/
def handle_document_message (md : MessageData) (sn sp : Option String) : List TgCall :=
  let doc_data := md.fileMessageData.getD FileMessageData.empty
  let filename := pyOrS doc_data.fileName "document"
  if truthy doc_data.downloadUrl then
    [TgCall.sendDocument (doc_data.downloadUrl.getD "") filename md.caption sn sp]
  else []

/-- `WebhookHandler._handle_audio_message` (app/handlers.py:192-206); the
fixed caption in the source is the mojibake music-note icon. -/
def handle_audio_message (md : MessageData) (sn sp : Option String) : List TgCall :=
  let audio_data := md.fileMessageData.getD FileMessageData.empty
  let filename := pyOrS audio_data.fileName "audio.mp3"
  if truthy audio_data.downloadUrl then
    [TgCall.sendDocument (audio_data.downloadUrl.getD "") filename
      (some "ðŸŽµ Audio") sn sp]
  else []

/-- `WebhookHandler._handle_voice_message` (app/handlers.py:208-222). -/
def handle_voice_message (md : MessageData) (sn sp : Option String) : List TgCall :=
  let voice_data := md.fileMessageData.getD FileMessageData.empty
  let filename := pyOrS voice_data.fileName "voice.ogg"
  if truthy voice_data.downloadUrl then
    [TgCall.sendDocument (voice_data.downloadUrl.getD "") filename
      (some "ðŸŽ¤ Voice message") sn sp]
  else []

/-- The status dict returned by `WebhookHandler.handle_incoming_message`. -/
inductive MaxResult where
  | ignored (reason : String)
  | unsupported (typeMessage : Option String)
  | success
  | error (message : String)
deriving DecidableEq

/-- The `"status"` field of the returned dict. -/
def MaxResult.status : MaxResult → String
  | MaxResult.ignored _ => "ignored"
  | MaxResult.unsupported _ => "unsupported"
  | MaxResult.success => "success"
  | MaxResult.error _ => "error"

/-- `WebhookHandler.handle_incoming_message` (app/handlers.py:50-115) as
(returned status, dispatch calls). The Python `if/elif` chain on
`type_message` is an equality chain here; no statement of the embedded
fragment raises, so the `except` arm of the method is unreachable. -/
def handle_incoming_message (target_chat_id : Option String) (p : Payload) :
    MaxResult × List TgCall :=
  if !eventAllowed p then (MaxResult.ignored "not_a_message", [])
  else if !should_process_message target_chat_id (maxChatOf p) then
    (MaxResult.ignored "chat_filter", [])
  else
    let message_data := p.messageData.getD MessageData.empty
    let sender_data := p.senderData.getD SenderData.empty
    let sender_name := pyOr sender_data.senderName sender_data.name
    let sender_phone := some (pyReplace (sender_data.sender.getD "") "@c.us" "")
    let tm := message_data.typeMessage
    if tm = some "textMessage" then
      (MaxResult.success, handle_text_message_max message_data sender_name sender_phone)
    else if tm = some "extendedTextMessage" then
      (MaxResult.success, handle_extended_text_message message_data sender_name sender_phone)
    else if tm = some "imageMessage" then
      (MaxResult.success, handle_image_message message_data sender_name sender_phone)
    else if tm = some "videoMessage" then
      (MaxResult.success, handle_video_message message_data sender_name sender_phone)
    else if tm = some "documentMessage" then
      (MaxResult.success, handle_document_message message_data sender_name sender_phone)
    else if tm = some "audioMessage" then
      (MaxResult.success, handle_audio_message message_data sender_name sender_phone)
    else if tm = some "voiceMessage" then
      (MaxResult.success, handle_voice_message message_data sender_name sender_phone)
    else (MaxResult.unsupported tm, [])

/-- The sender of a Telegram message (`message.from_user`): aiogram exposes
`full_name` (always a string) and an optional `username`. -/
structure TgUser where
  full_name : String
  username : Option String
deriving DecidableEq

/-- `message.document`. -/
structure TgDocument where
  file_id : String
  file_name : Option String
deriving DecidableEq

/-- `message.audio`. -/
structure TgAudio where
  file_id : String
  file_name : Option String
deriving DecidableEq

/-- The parts of an aiogram `Message` read by `TelegramWebhookHandler`;
`photo` is the list of `PhotoSize` file ids, smallest first. -/
structure TgMessage where
  chat_id : Int
  from_user : Option TgUser
  text : Option String
  photo : Option (List String)
  video : Option String
  document : Option TgDocument
  voice : Option String
  audio : Option TgAudio
  caption : Option String
deriving DecidableEq

/-- A Telegram `Update`: the handlers only look at `message`. -/
structure TgUpdate where
  message : Option TgMessage
deriving DecidableEq

/-- A dispatch call made on `green_api_client` by the Telegram→Max handlers. -/
inductive MaxCall where
  | sendText (chatId text : String) (sender_name sender_username : Option String)
  | sendPhoto (chatId url : String) (caption sender_name sender_username : Option String)
  | sendVideo (chatId url : String) (caption sender_name sender_username : Option String)
  | sendDocument (chatId url filename : String)
      (caption sender_name sender_username : Option String)
deriving DecidableEq

/-- Configuration and collaborators of `TelegramWebhookHandler`
(app/telegram_handlers.py:21-38): the chat filter and the Max target chat
from settings, the bot token, and `bot.get_file` abstracted as a map from
file id to file path. -/
structure TgCfg where
  target_chat_id : Option String
  max_target_chat : String
  token : String
  file_path : String → String

/-- `TelegramWebhookHandler.should_process_message`
(app/telegram_handlers.py:73-88): `str(chat_id) == str(target)` once a
truthy filter is set. -/
def tgShouldProcess (target_chat_id : Option String) (chat_id : Int) : Bool :=
  if !truthy target_chat_id then true
  else toString chat_id == target_chat_id.getD ""

/-- `TelegramWebhookHandler._get_sender_info`
(app/telegram_handlers.py:113-133). -/
def tgSenderInfo (m : TgMessage) : Option String × Option String :=
  match m.from_user with
  | none => (none, none)
  | some u => (some u.full_name, u.username)

/-- The download URL built from `bot.get_file`
(for example app/telegram_handlers.py:177-178). -/
def tgFileUrl (cfg : TgCfg) (file_id : String) : String :=
  "https://api.telegram.org/file/bot" ++ cfg.token ++ "/" ++ cfg.file_path file_id

/-- `TelegramWebhookHandler._handle_text_message`
(app/telegram_handlers.py:135-160): a filtered chat returns without any
dispatch; otherwise `message.text or ""` is relayed. -/
def tgHandleText (cfg : TgCfg) (m : TgMessage) : List MaxCall :=
  if !tgShouldProcess cfg.target_chat_id m.chat_id then []
  else
    let si := tgSenderInfo m
    [MaxCall.sendText cfg.max_target_chat (m.text.getD "") si.1 si.2]

/-- `TelegramWebhookHandler._handle_photo_message`
(app/telegram_handlers.py:162-195): relays the last (largest) photo size;
`message.photo[-1]` on an empty list raises, which the handler's broad
`except` swallows with no dispatch. -/
def tgHandlePhoto (cfg : TgCfg) (m : TgMessage) : List MaxCall :=
  if !tgShouldProcess cfg.target_chat_id m.chat_id then []
  else
    let si := tgSenderInfo m
    match m.photo with
    | some sizes =>
      match sizes.getLast? with
      | some fid =>
        [MaxCall.sendPhoto cfg.max_target_chat (tgFileUrl cfg fid) m.caption si.1 si.2]
      | none => []
    | none => []

/-- `TelegramWebhookHandler._handle_video_message`
(app/telegram_handlers.py:197-230). -/
def tgHandleVideo (cfg : TgCfg) (m : TgMessage) : List MaxCall :=
  if !tgShouldProcess cfg.target_chat_id m.chat_id then []
  else
    let si := tgSenderInfo m
    match m.video with
    | some fid =>
      [MaxCall.sendVideo cfg.max_target_chat (tgFileUrl cfg fid) m.caption si.1 si.2]
    | none => []

/-- `TelegramWebhookHandler._handle_document_message`
(app/telegram_handlers.py:232-267). -/
def tgHandleDocument (cfg : TgCfg) (m : TgMessage) : List MaxCall :=
  if !tgShouldProcess cfg.target_chat_id m.chat_id then []
  else
    let si := tgSenderInfo m
    match m.document with
    | some d =>
      [MaxCall.sendDocument cfg.max_target_chat (tgFileUrl cfg d.file_id)
        (pyOrS d.file_name "document") m.caption si.1 si.2]
    | none => []

/-- `TelegramWebhookHandler._handle_voice_message`
(app/telegram_handlers.py:269-300); the fixed caption in the source is the
mojibake microphone icon. -/
def tgHandleVoice (cfg : TgCfg) (m : TgMessage) : List MaxCall :=
  if !tgShouldProcess cfg.target_chat_id m.chat_id then []
  else
    let si := tgSenderInfo m
    match m.voice with
    | some fid =>
      [MaxCall.sendDocument cfg.max_target_chat (tgFileUrl cfg fid)
        "voice.ogg" (some "ðŸŽ¤ Voice message") si.1 si.2]
    | none => []

/-- `TelegramWebhookHandler._handle_audio_message`
(app/telegram_handlers.py:302-336). -/
def tgHandleAudio (cfg : TgCfg) (m : TgMessage) : List MaxCall :=
  if !tgShouldProcess cfg.target_chat_id m.chat_id then []
  else
    let si := tgSenderInfo m
    match m.audio with
    | some a =>
      [MaxCall.sendDocument cfg.max_target_chat (tgFileUrl cfg a.file_id)
        (pyOrS a.file_name "audio.mp3") (some "ðŸŽµ Audio") si.1 si.2]
    | none => []

/-- The six handler registrations of `_register_handlers`
(app/telegram_handlers.py:40-71), in registration order. -/
inductive TgHandlerKind where
  | text
  | photo
  | video
  | document
  | voice
  | audio
deriving DecidableEq

/-- The registration filter of each handler: the text handler requires a
truthy `message.text` not starting with `"/"`; the others use
`is not None` checks on their attachment field. -/
def tgFilter (m : TgMessage) : TgHandlerKind → Bool
  | TgHandlerKind.text => truthy m.text && !(pyStartsWith (m.text.getD "") "/")
  | TgHandlerKind.photo => m.photo.isSome
  | TgHandlerKind.video => m.video.isSome
  | TgHandlerKind.document => m.document.isSome
  | TgHandlerKind.voice => m.voice.isSome
  | TgHandlerKind.audio => m.audio.isSome

def tgRegistrationOrder : List TgHandlerKind :=
  [TgHandlerKind.text, TgHandlerKind.photo, TgHandlerKind.video,
   TgHandlerKind.document, TgHandlerKind.voice, TgHandlerKind.audio]

/-- The aiogram dispatcher picks the first registered handler whose filter
accepts the message. -/
def tgSelectHandler (m : TgMessage) : Option TgHandlerKind :=
  tgRegistrationOrder.find? (tgFilter m)

def tgRunHandler (cfg : TgCfg) (m : TgMessage) : TgHandlerKind → List MaxCall
  | TgHandlerKind.text => tgHandleText cfg m
  | TgHandlerKind.photo => tgHandlePhoto cfg m
  | TgHandlerKind.video => tgHandleVideo cfg m
  | TgHandlerKind.document => tgHandleDocument cfg m
  | TgHandlerKind.voice => tgHandleVoice cfg m
  | TgHandlerKind.audio => tgHandleAudio cfg m

/-- `Dispatcher.feed_update`: run the selected handler, or nothing when no
filter matches (aiogram then reports the update as unhandled, which is not
an error). -/
def tgFeedUpdate (cfg : TgCfg) (m : TgMessage) : List MaxCall :=
  match tgSelectHandler m with
  | some k => tgRunHandler cfg m k
  | none => []

/-- The status dict returned by `TelegramWebhookHandler.handle_update`. -/
inductive TgResult where
  | success
  | error (message : String)
deriving DecidableEq

def TgResult.status : TgResult → String
  | TgResult.success => "success"
  | TgResult.error _ => "error"

/-- `TelegramWebhookHandler.handle_update` (app/telegram_handlers.py:90-111):
feeds the update to the dispatcher and returns `{"status": "success"}`.
The per-message handlers swallow their own exceptions, so in the embedded
fragment the `except` arm is unreachable and the status is always success —
including when the chat filter silently discarded the message. -/
def tgHandleUpdate (cfg : TgCfg) (u : TgUpdate) : TgResult × List MaxCall :=
  match u.message with
  | some m => (TgResult.success, tgFeedUpdate cfg m)
  | none => (TgResult.success, [])

/-- An HTTP response: status code and the `"status"` field of the JSON body. -/
structure HttpResponse where
  statusCode : Nat
  status : String
deriving DecidableEq

/-- `webhook_endpoint` for `POST /webhook` (app/main.py:130-181). The whole
body sits in one `try/except Exception` block, so the
`raise HTTPException(status_code=401)` issued on a failed secret check is
caught by that same `except` arm, which answers with a 500 response whose
body status is `"error"` — the 401 never reaches the client. Result:
(response, dispatch calls to `telegram_client`). -/
def webhook_endpoint (s : Settings) (auth_header : Option String) (p : Payload) :
    HttpResponse × List TgCall :=
  if !s.enable_max_to_telegram then (⟨200, "disabled"⟩, [])
  else if truthy s.webhook_secret
      && !(truthy auth_header
            && auth_header.getD "" == "Bearer " ++ s.webhook_secret.getD "") then
    (⟨500, "error"⟩, [])
  else
    let r := handle_incoming_message s.max_chat_id p
    (⟨200, r.1.status⟩, r.2)

/-- `telegram_webhook_endpoint` for `POST /telegram/webhook`
(app/main.py:184-232); `handler_ready` models whether
`init_telegram_handler` ran during startup. As for `/webhook`, the 401
`HTTPException` raised on a failed `X-Telegram-Bot-Api-Secret-Token` check
is caught by the enclosing `except Exception` and surfaces as a 500
`"error"` response. -/
def telegram_webhook_endpoint (s : Settings) (cfg : TgCfg) (handler_ready : Bool)
    (secret_header : Option String) (u : TgUpdate) : HttpResponse × List MaxCall :=
  if !s.enable_telegram_to_max then (⟨200, "disabled"⟩, [])
  else if truthy s.telegram_webhook_secret
      && !(truthy secret_header
            && secret_header.getD "" == s.telegram_webhook_secret.getD "") then
    (⟨500, "error"⟩, [])
  else if handler_ready then
    let r := tgHandleUpdate cfg u
    (⟨200, r.1.status⟩, r.2)
  else (⟨500, "error"⟩, [])

/-- C4: `validate_settings` raises exactly when the two direction flags are
both true or both false; with exactly one flag set it never raises (it
returns the boolean completeness check instead). -/
theorem validate_settings_direction_flags (s : Settings) :
    raises (validate_settings s)
      = (s.enable_max_to_telegram == s.enable_telegram_to_max) := by
  cases hm : s.enable_max_to_telegram <;> cases ht : s.enable_telegram_to_max <;>
    simp [validate_settings, raises, hm, ht]

/-- C5: for text `"Hello"` from sender name `"Alice"` with handle
`"alice99"`, the outbound GREEN-API body is exactly the attribution header
containing both, two newlines, then the original text. -/
theorem hello_from_alice_message :
    greenSendTextPayload "7700" "Hello" (some "Alice") (some "alice99")
      = ⟨"7700", "📨 *From Telegram:* 👤 Alice | @alice99\n\nHello"⟩ := by
  rfl

/-- C7: with sender name and handle both absent, both sender-attribution
formatters return the original text unchanged. -/
theorem format_message_no_sender_unchanged (text : String) :
    tgFormatMessage text none none = text
    ∧ greenFormatMessage text none none = text := by
  exact ⟨rfl, rfl⟩

/-- C2 counterexample: when the download succeeds and the underlying
transport raises `TelegramAPIError`, `send_photo` (and `send_document`)
return `False` but the downloaded temporary file still exists afterwards —
the claimed deletion on every exit path fails on the send-failure path. -/
theorem temp_file_survives_send_failure :
    (send_photo_run DownloadOutcome.ok SendOutcome.apiError "tmp1").1 = false
    ∧ (send_photo_run DownloadOutcome.ok SendOutcome.apiError "tmp1").2 = ["tmp1"]
    ∧ (send_document_run DownloadOutcome.ok SendOutcome.apiError "tmp2").2 = ["tmp2"] := by
  exact ⟨rfl, rfl, rfl⟩

/-- C2 amended: for the three download-then-upload senders, the temporary
file is deleted on the successful-send path, and no temporary file exists
after a download that failed before the file was created (connection error
or non-200 status); but a download that fails after creating the
`delete=False` temp file (exception while reading or writing the body)
returns `success = false` with the file left on disk, and when the
transport raises, the call likewise returns `success = false` without
deleting the downloaded file. -/
theorem temp_file_lifecycle (n : String) (s : SendOutcome) :
    (send_photo_run DownloadOutcome.connError s n).2 = []
    ∧ (send_photo_run DownloadOutcome.badStatus s n).2 = []
    ∧ send_photo_run DownloadOutcome.readError s n = (false, [n])
    ∧ send_photo_run DownloadOutcome.ok SendOutcome.delivered n = (true, [])
    ∧ send_photo_run DownloadOutcome.ok SendOutcome.apiError n = (false, [n])
    ∧ (send_video_run DownloadOutcome.connError s n).2 = []
    ∧ (send_video_run DownloadOutcome.badStatus s n).2 = []
    ∧ send_video_run DownloadOutcome.readError s n = (false, [n])
    ∧ send_video_run DownloadOutcome.ok SendOutcome.delivered n = (true, [])
    ∧ send_video_run DownloadOutcome.ok SendOutcome.apiError n = (false, [n])
    ∧ (send_document_run DownloadOutcome.connError s n).2 = []
    ∧ (send_document_run DownloadOutcome.badStatus s n).2 = []
    ∧ send_document_run DownloadOutcome.readError s n = (false, [n])
    ∧ send_document_run DownloadOutcome.ok SendOutcome.delivered n = (true, [])
    ∧ send_document_run DownloadOutcome.ok SendOutcome.apiError n = (false, [n]) := by
  refine ⟨rfl, rfl, rfl, ?_, rfl, rfl, rfl, rfl, ?_, rfl, rfl, rfl, rfl, ?_, rfl⟩ <;>
    simp [send_photo_run, send_video_run, send_document_run, download_file]

/-- C6: the document event with `fileMessageData = {downloadUrl:
"http://x/doc.pdf", fileName: "report.pdf"}` and no caption relays with
filename `"report.pdf"` as claimed, but the default caption built by
`send_document` is the mojibake literal `"ðŸ“„ report.pdf"` (the UTF-8
bytes of the document icon decoded as cp1252), not `"📄 report.pdf"`. -/
theorem document_default_caption_mojibake :
    handle_document_message
        ⟨some "documentMessage", none, none,
          some ⟨some "http://x/doc.pdf", some "report.pdf"⟩, none, none⟩ none none
      = [TgCall.sendDocument "http://x/doc.pdf" "report.pdf" none none none]
    ∧ tgDocumentCaption (some "report.pdf") none = "ðŸ“„ report.pdf"
    ∧ tgFormatMessage (tgDocumentCaption (some "report.pdf") none) none none
        = "ðŸ“„ report.pdf"
    ∧ "ðŸ“„ report.pdf" ≠ "📄 report.pdf" := by
  refine ⟨rfl, rfl, rfl, ?_⟩
  decide

/-- Sample settings for `/webhook`: Max→Telegram enabled, secret `"sec"`. -/
def sampleMaxSettings : Settings :=
  ⟨"1101", "tok", "bt", "chan", none, none, none, "", true, false, some "sec"⟩

/-- Sample allow-listed text payload from chat `"111"`. -/
def samplePayload : Payload :=
  ⟨some "incomingMessageReceived",
   some ⟨some "111", some "111", some "Ann", none⟩,
   some ⟨some "textMessage", some "hi", none, none, none, none⟩⟩

/-- Sample settings for `/telegram/webhook`: Telegram→Max enabled, secret
`"tsec"`. -/
def sampleTgSettings : Settings :=
  ⟨"1101", "tok", "bt", "", none, some "tsec", none, "900", false, true, none⟩

/-- Sample handler configuration: no chat filter, Max target chat `"900"`. -/
def sampleCfg : TgCfg := ⟨none, "900", "bt", fun _ => "f"⟩

/-- Sample Telegram text update from Bob. -/
def sampleUpdate : TgUpdate :=
  ⟨some ⟨5, some ⟨"Bob", none⟩, some "hello", none, none, none, none, none, none⟩⟩

/-- C1: at the failing inputs — a secret configured and the request header
missing or mismatched — both endpoints answer HTTP 500 with body status
`"error"` (the 401 `HTTPException` is swallowed by the endpoint's own
blanket `except`), never 401, and no dispatch occurs; the same payload
dispatches once the correct header is supplied. -/
theorem webhook_auth_failure_swallowed_to_500 :
    (webhook_endpoint sampleMaxSettings none samplePayload).1 = ⟨500, "error"⟩
    ∧ (webhook_endpoint sampleMaxSettings none samplePayload).2 = []
    ∧ (webhook_endpoint sampleMaxSettings (some "Bearer wrong") samplePayload).1
        = ⟨500, "error"⟩
    ∧ (webhook_endpoint sampleMaxSettings (some "Bearer wrong") samplePayload).2 = []
    ∧ (webhook_endpoint sampleMaxSettings none samplePayload).1.statusCode ≠ 401
    ∧ (webhook_endpoint sampleMaxSettings (some "Bearer sec") samplePayload).2
        = [TgCall.sendText "hi" (some "Ann") (some "111")]
    ∧ (telegram_webhook_endpoint sampleTgSettings sampleCfg true none sampleUpdate).1
        = ⟨500, "error"⟩
    ∧ (telegram_webhook_endpoint sampleTgSettings sampleCfg true none sampleUpdate).2 = []
    ∧ (telegram_webhook_endpoint sampleTgSettings sampleCfg true
        (some "wrong") sampleUpdate).1 = ⟨500, "error"⟩
    ∧ (telegram_webhook_endpoint sampleTgSettings sampleCfg true
        (some "wrong") sampleUpdate).2 = []
    ∧ (telegram_webhook_endpoint sampleTgSettings sampleCfg true
        (some "tsec") sampleUpdate).2
        = [MaxCall.sendText "900" "hello" (some "Bob") none] := by
  refine ⟨rfl, rfl, rfl, rfl, ?_, rfl, rfl, rfl, rfl, rfl, rfl⟩
  decide

/-- A truthy filter together with a mismatching chat makes the Max-side
filter predicate false. -/
theorem should_process_message_false (target : String) (chat : Option String)
    (ht : target ≠ "") (hne : chat ≠ some target) :
    should_process_message (some target) chat = false := by
  have h1 : truthy (some target) = true := by
    simp only [truthy, bne_iff_ne, ne_eq]
    exact ht
  simp only [should_process_message, h1, Bool.not_true, Bool.false_eq_true,
    if_false]
  exact beq_eq_false_iff_ne.mpr hne

/-- A truthy filter together with a mismatching chat id makes the
Telegram-side filter predicate false. -/
theorem tgShouldProcess_false (target : String) (chat : Int)
    (ht : target ≠ "") (hne : toString chat ≠ target) :
    tgShouldProcess (some target) chat = false := by
  have h1 : truthy (some target) = true := by
    simp only [truthy, bne_iff_ne, ne_eq]
    exact ht
  simp only [tgShouldProcess, h1, Bool.not_true, Bool.false_eq_true, if_false,
    Option.getD_some]
  exact beq_eq_false_iff_ne.mpr hne

/-- C3 counterexample: in the Telegram→Max direction, an update from a chat
that does not match the configured filter triggers no dispatch but the
handler returns status `"success"`, not `"ignored"`. -/
theorem filtered_telegram_update_reports_success :
    tgHandleUpdate ⟨some "123", "900", "tok", fun _ => "p"⟩
        ⟨some ⟨456, none, some "hi", none, none, none, none, none, none⟩⟩
      = (TgResult.success, [])
    ∧ TgResult.status TgResult.success ≠ "ignored" := by
  exact ⟨rfl, by decide⟩

/-- C3 amended: with a configured filter and a mismatching source chat, no
outbound dispatch occurs in either direction; the Max→Telegram handler
reports status `"ignored"`, while the Telegram→Max handler reports
`"success"` (its filter silently drops the message inside the per-message
handler). -/
theorem chat_filter_no_dispatch (target : String) (p : Payload) (cfg : TgCfg)
    (m : TgMessage)
    (htarget : target ≠ "")
    (hmax : maxChatOf p ≠ some target)
    (hcfg : cfg.target_chat_id = some target)
    (htg : toString m.chat_id ≠ target) :
    (handle_incoming_message (some target) p).1.status = "ignored"
    ∧ (handle_incoming_message (some target) p).2 = []
    ∧ tgHandleUpdate cfg ⟨some m⟩ = (TgResult.success, []) := by
  have hsp := should_process_message_false target (maxChatOf p) htarget hmax
  have hmaxpart : (handle_incoming_message (some target) p).1.status = "ignored"
      ∧ (handle_incoming_message (some target) p).2 = [] := by
    cases hA : eventAllowed p
    · simp [handle_incoming_message, hA, MaxResult.status]
    · simp [handle_incoming_message, hA, hsp, MaxResult.status]
  have hspt : tgShouldProcess cfg.target_chat_id m.chat_id = false := by
    rw [hcfg]
    exact tgShouldProcess_false target m.chat_id htarget htg
  have hrun : ∀ k, tgRunHandler cfg m k = [] := by
    intro k
    cases k <;>
      simp [tgRunHandler, tgHandleText, tgHandlePhoto, tgHandleVideo,
        tgHandleDocument, tgHandleVoice, tgHandleAudio, hspt]
  have hfeed : tgFeedUpdate cfg m = [] := by
    unfold tgFeedUpdate
    cases hsel : tgSelectHandler m with
    | none => rfl
    | some k => simpa using hrun k
  exact ⟨hmaxpart.1, hmaxpart.2, by simp [tgHandleUpdate, hfeed]⟩

/-- Sample filtered inputs for the chat-filter theorem. -/
def filteredPayload : Payload :=
  ⟨some "incomingMessageReceived",
   some ⟨some "456", some "456", some "Ann", none⟩,
   some ⟨some "textMessage", some "hi", none, none, none, none⟩⟩

def filteredCfg : TgCfg := ⟨some "123", "900", "tok", fun _ => "p"⟩

def filteredTgMessage : TgMessage :=
  ⟨456, none, some "hi", none, none, none, none, none, none⟩

/-- Witness for the chat-filter theorem at filter `"123"` and chat `456`. -/
theorem chat_filter_no_dispatch_witness :
    (handle_incoming_message (some "123") filteredPayload).1.status = "ignored"
    ∧ (handle_incoming_message (some "123") filteredPayload).2 = []
    ∧ tgHandleUpdate filteredCfg ⟨some filteredTgMessage⟩ = (TgResult.success, []) :=
  chat_filter_no_dispatch "123" filteredPayload filteredCfg filteredTgMessage
    (by decide) (by decide) rfl (by decide)

/-- Allow-listed payload with the unmapped type `"stickerMessage"` from
chat `"456"`. -/
def stickerFilteredPayload : Payload :=
  ⟨some "incomingMessageReceived",
   some ⟨some "456", some "456", some "Ann", none⟩,
   some ⟨some "stickerMessage", none, none, none, none, none⟩⟩

/-- C8 counterexample: an allow-listed payload with the unmapped message
type `"stickerMessage"` coming from a chat that a configured filter
rejects is answered with status `"ignored"` (reason `chat_filter`), not the
claimed `"unsupported"` — though still deterministically and with no
dispatch. -/
theorem filtered_unmapped_payload_reports_ignored :
    eventAllowed stickerFilteredPayload = true
    ∧ typeMapped stickerFilteredPayload = false
    ∧ (handle_incoming_message (some "123") stickerFilteredPayload).1.status = "ignored"
    ∧ (handle_incoming_message (some "123") stickerFilteredPayload).1.status ≠ "unsupported"
    ∧ (handle_incoming_message (some "123") stickerFilteredPayload).2 = [] := by
  refine ⟨rfl, rfl, rfl, ?_, rfl⟩
  decide

/-- C8 amended: reprocessing a payload whose event type is off the
allow-list, or whose message type is unmapped, gives the same result on
both runs and performs no dispatch either time; that result is
`"unsupported"` only when the event is allow-listed and the chat passes the
configured filter — off-allow-list events, and filtered chats, yield
`"ignored"` instead. -/
theorem unsupported_event_reprocessing_idempotent (target : Option String)
    (p : Payload)
    (h : eventAllowed p = false ∨ typeMapped p = false) :
    handle_incoming_message target p = handle_incoming_message target p
    ∧ (handle_incoming_message target p).2 = []
    ∧ (handle_incoming_message target p).1.status
        = (if eventAllowed p then
            (if should_process_message target (maxChatOf p) then "unsupported"
             else "ignored")
           else "ignored") := by
  refine ⟨rfl, ?_⟩
  rcases h with hA | hM
  · simp [handle_incoming_message, hA, MaxResult.status]
  · cases hA : eventAllowed p
    · simp [handle_incoming_message, hA, MaxResult.status]
    · cases hS : should_process_message target (maxChatOf p)
      · simp [handle_incoming_message, hA, hS, MaxResult.status]
      · rcases hT : typeMessageOf p with _ | t
        · simp [handle_incoming_message, hA, hS, typeMessageOf] at hT ⊢
          simp [hT, MaxResult.status]
        · have hlist : mappedMessageTypes.contains t = false := by
            simpa [typeMapped, hT] using hM
          simp only [mappedMessageTypes, List.contains_cons, List.contains_nil,
            Bool.or_eq_false_iff, beq_eq_false_iff_ne, ne_eq] at hlist
          simp [handle_incoming_message, hA, hS, typeMessageOf] at hT ⊢
          simp [hT, hlist, MaxResult.status]

/-- Sample allow-listed payload with the unmapped type `"stickerMessage"`. -/
def stickerPayload : Payload :=
  ⟨some "incomingMessageReceived",
   some ⟨some "111", some "111", some "Ann", none⟩,
   some ⟨some "stickerMessage", none, none, none, none, none⟩⟩

/-- Witness for the reprocessing theorem on a sticker payload, no filter. -/
theorem unsupported_event_reprocessing_idempotent_witness :
    handle_incoming_message none stickerPayload
        = handle_incoming_message none stickerPayload
    ∧ (handle_incoming_message none stickerPayload).2 = []
    ∧ (handle_incoming_message none stickerPayload).1.status
        = (if eventAllowed stickerPayload then
            (if should_process_message none (maxChatOf stickerPayload) then "unsupported"
             else "ignored")
           else "ignored") :=
  unsupported_event_reprocessing_idempotent none stickerPayload (Or.inr (by decide))

/-- C9: an allow-listed `textMessage` payload passing the chat filter whose
text body is absent or empty dispatches nothing yet reports `"success"`. -/
theorem empty_text_message_success (target : Option String) (p : Payload)
    (hA : eventAllowed p = true)
    (hS : should_process_message target (maxChatOf p) = true)
    (hT : typeMessageOf p = some "textMessage")
    (htext : textOf p = none ∨ textOf p = some "") :
    handle_incoming_message target p = (MaxResult.success, []) := by
  have htm : (p.messageData.getD MessageData.empty).typeMessage
      = some "textMessage" := hT
  have hcalls : handle_text_message_max (p.messageData.getD MessageData.empty)
      (pyOr (p.senderData.getD SenderData.empty).senderName
        (p.senderData.getD SenderData.empty).name)
      (some (pyReplace ((p.senderData.getD SenderData.empty).sender.getD "")
        "@c.us" "")) = [] := by
    rcases htext with h0 | h0 <;>
      simp [handle_text_message_max, textOf] at h0 ⊢ <;> simp [h0]
  simp [handle_incoming_message, hA, hS, htm, hcalls]

/-- Sample allow-listed text payload whose text body is absent. -/
def emptyTextPayload : Payload :=
  ⟨some "incomingMessageReceived",
   some ⟨some "111", some "111", some "Ann", none⟩,
   some ⟨some "textMessage", none, none, none, none, none⟩⟩

/-- Witness for the empty-text theorem, no filter configured. -/
theorem empty_text_message_success_witness :
    handle_incoming_message none emptyTextPayload = (MaxResult.success, []) :=
  empty_text_message_success none emptyTextPayload (by decide) (by decide)
    (by decide) (Or.inl (by decide))

/-- C10: a Telegram message whose text starts with `"/"` never selects the
text relay handler, and a pure command message (no attachments) produces no
dispatch to Max at all. -/
theorem command_text_not_relayed (cfg : TgCfg) (m : TgMessage) (t : String)
    (ht : m.text = some t) (hs : pyStartsWith t "/" = true) :
    tgSelectHandler m ≠ some TgHandlerKind.text
    ∧ (m.photo = none → m.video = none → m.document = none → m.voice = none →
        m.audio = none → tgFeedUpdate cfg m = []) := by
  have hf : tgFilter m TgHandlerKind.text = false := by
    simp [tgFilter, ht, hs]
  constructor
  · intro hsel
    unfold tgSelectHandler at hsel
    have h2 := List.find?_some hsel
    rw [hf] at h2
    exact Bool.false_ne_true h2
  · intro hp hv hd hvo ha
    simp [tgFeedUpdate, tgSelectHandler, tgRegistrationOrder, List.find?,
      tgFilter, ht, hs, hp, hv, hd, hvo, ha]

/-- Sample command message and configuration. -/
def commandCfg : TgCfg := ⟨none, "900", "tok", fun _ => "path"⟩

def commandMessage : TgMessage :=
  ⟨7, some ⟨"Bob", none⟩, some "/start", none, none, none, none, none, none⟩

/-- Witness for the command theorem at text `"/start"`. -/
theorem command_text_not_relayed_witness :
    tgSelectHandler commandMessage ≠ some TgHandlerKind.text
    ∧ (commandMessage.photo = none → commandMessage.video = none →
        commandMessage.document = none → commandMessage.voice = none →
        commandMessage.audio = none → tgFeedUpdate commandCfg commandMessage = []) :=
  command_text_not_relayed commandCfg commandMessage "/start" rfl (by decide)

end Bridge
